import Mathlib

/-!
Shallow embedding of the ToF-Lidar-Rust sensor poller (src/src/main.rs) and
proofs of its specification's claims.

Machine integers are modelled as `Nat` with explicit `% 256` where a Rust
`u8` is widened; a Rust `u16` value built from two bytes is below `2^16`,
so its arithmetic never overflows and needs no masking.  Fallible reads are
modelled with `Option` and explicit outcome types.
-/

namespace ToFLidar

/-- `const MAX_DISTANCE_MM: u16 = 6000` (main.rs line 26). -/
def MAX_DISTANCE_MM : Nat := 6000

/-- `const MIN_DISTANCE_MM: u16 = 500` (main.rs line 27). -/
def MIN_DISTANCE_MM : Nat := 500

/-- `const JSON_FILE_INTERVAL_MINUTES: u64 = 2` (main.rs line 21). -/
def JSON_FILE_INTERVAL_MINUTES : Nat := 2

/-- `const PORTS: [&str; 3]` (main.rs line 22). -/
def PORTS : List String := ["/dev/ttyACM1", "/dev/ttyACM0", "/dev/ttyACM2"]

/-- `enum Mode { Binary, Text }` (main.rs lines 11-15). -/
inductive Mode where
  | Binary
  | Text
deriving DecidableEq, Repr

/-- The spec's `DecodedReading`: a distance in mm plus a validity flag.  In the
source the flag is implicit: `valid = true` exactly when the accepting branch
assigns `final_distance`, otherwise `final_distance` stays `0`. -/
structure DecodedReading where
  distance_mm : Nat
  valid : Bool
deriving DecidableEq, Repr

/-- Binary-mode frame handling, main.rs lines 154-172: on a 4-byte buffer,
`buffer[0] == 0x54` gates decoding; the distance is
`(buffer[2] as u16) << 8 | (buffer[3] as u16)` divided by 10, accepted only
inside `[MIN_DISTANCE_MM, MAX_DISTANCE_MM]`.  Bytes are `u8`, hence the
`% 256`; `buffer[1]` is read but never used. -/
def decodeBinaryFrame (b0 _b1 b2 b3 : Nat) : DecodedReading :=
  if b0 % 256 = 0x54 then
    let distance := (((b2 % 256) <<< 8) ||| (b3 % 256)) / 10
    if MIN_DISTANCE_MM ≤ distance ∧ distance ≤ MAX_DISTANCE_MM then
      ⟨distance, true⟩
    else
      ⟨0, false⟩
  else
    ⟨0, false⟩

/-- Value of a list of decimal digit characters, most significant first:
the accumulator loop of Rust's `u16::from_str`. -/
def digitsToNat (cs : List Char) : Nat :=
  cs.foldl (fun acc c => acc * 10 + (c.toNat - 48)) 0

/-- Rust's `str::trim`: drop whitespace from both ends.  Lines are modelled
as character lists (`read_line` hands back the bytes it read, decoded). -/
def rustTrim (cs : List Char) : List Char :=
  ((cs.dropWhile Char.isWhitespace).reverse.dropWhile Char.isWhitespace).reverse

/-- Rust's `str::parse::<u16>`: an optional leading `+`, then one or more
decimal digits, and the value must fit in 16 bits; everything else is a
parse error (`none`). -/
def parseU16 (s : List Char) : Option Nat :=
  let cs := if s.head? = some '+' then s.tail else s
  if cs ≠ [] ∧ cs.all Char.isDigit then
    if digitsToNat cs ≤ 65535 then some (digitsToNat cs) else none
  else
    none

/-- The distinguishable outcomes of `read_text_distance` (main.rs lines
73-90).  `noData` is the `_` arm (read error, timeout, or zero bytes);
`parseFail` is a line whose trimmed content does not parse as `u16` (no
warning is printed there); `outOfRange` carries the parsed value rejected by
the bounds check (warning printed with the value); `accepted` is a returned
distance. -/
inductive TextReadOutcome where
  | noData
  | parseFail
  | outOfRange (d : Nat)
  | accepted (d : Nat)
deriving DecidableEq, Repr

/-- `read_text_distance` (main.rs lines 73-90) on the result of `read_line`:
`none` models `Err(_)` (including timeouts), `some line` models `Ok(n)` with
the characters read; `n > 0` corresponds to a nonempty line.  The line is
trimmed, parsed as `u16`, and bounds-checked. -/
def read_text_distance (input : Option (List Char)) : TextReadOutcome :=
  match input with
  | none => .noData
  | some line =>
    if line.isEmpty then .noData
    else
      match parseU16 (rustTrim line) with
      | some distance =>
        if MIN_DISTANCE_MM ≤ distance ∧ distance ≤ MAX_DISTANCE_MM then
          .accepted distance
        else
          .outOfRange distance
      | none => .parseFail

/-- The distance the main loop records for a text-mode outcome:
`final_distance` is assigned only by the `Some(distance)` return
(main.rs lines 146-147), otherwise it stays `0`. -/
def textDistance : TextReadOutcome → Nat
  | .accepted d => d
  | _ => 0

example : read_text_distance (some ['1', '2', '3', '4', '\n']) = .accepted 1234 := by decide
example : read_text_distance (some ['7', '0', '0', '0', '\n']) = .outOfRange 7000 := by decide
example : read_text_distance (some ['7', '0', '0', '0', '0', '\n']) = .parseFail := by decide
example : read_text_distance (some ['-', '5', '\n']) = .parseFail := by decide
example : read_text_distance (some ['+', '6', '0', '0', '\n']) = .accepted 600 := by decide
example : decodeBinaryFrame 0x54 0 0x13 0x88 = ⟨500, true⟩ := by decide
example : decodeBinaryFrame 0x53 7 0x13 0x88 = ⟨0, false⟩ := by decide
example : decodeBinaryFrame 0x54 0 0xFF 0xFF = ⟨0, false⟩ := by decide

/-! ## The poll cycle (main.rs lines 135-191)

One iteration of the `loop` walks `serial_ports` with
`iter_mut().enumerate()`; each slot is `Some(port)` (opened) or `None`
(failed to open).  What a read on an open port delivers this cycle is an
oracle per port index: a timeout, another I/O error, a 4-byte buffer filled
by `read_exact` (binary mode), or the `read_line` result (text mode). -/

/-- The possible results of the one bounded read attempted on an open
channel in a cycle. -/
inductive ReadOutcome where
  | timeout
  | ioError
  | frame (b0 b1 b2 b3 : Nat)
  | line (cs : List Char)
  | emptyLine
deriving DecidableEq, Repr

/-- The accepted distance of a read, if any: in binary mode a frame is run
through header, reconstruction and bounds checks (main.rs lines 156-171); in
text mode through `read_text_distance`.  Timeouts, I/O errors
(`read_exact(..).is_ok()` false, the `_` arm of `read_line`) and
wrong-shaped data yield no accepted value. -/
def readAccepted : Mode → ReadOutcome → Option Nat
  | .Binary, .frame b0 b1 b2 b3 =>
    let r := decodeBinaryFrame b0 b1 b2 b3
    if r.valid then some r.distance_mm else none
  | .Text, .line cs =>
    match read_text_distance (some cs) with
    | .accepted d => some d
    | _ => none
  | _, _ => none

/-- `final_distance` after the per-port match (main.rs lines 140-174): the
accepted distance, or the initial `0`. -/
def readDistance (mode : Mode) (outcome : ReadOutcome) : Nat :=
  (readAccepted mode outcome).getD 0

/-- One port's slot in the cycle record (main.rs lines 179-182):
`sensor_readings["sensors"][PORTS[i]] = json!(distance_mm, distance_cm)`. -/
structure PortEntry where
  port : String
  distance_mm : Nat
  distance_cm : Nat
deriving DecidableEq, Repr

/-- The body of the per-port loop for index `i`: an open channel reads and
decodes, a channel that never opened contributes `final_distance = 0`
without any read (main.rs lines 139-183). -/
def cycleEntry (mode : Mode) (name : String) (opened : Bool)
    (outcome : ReadOutcome) : PortEntry :=
  let final_distance := if opened then readDistance mode outcome else 0
  ⟨name, final_distance, final_distance / 10⟩

/-- The `for (i, serial_port) in serial_ports.iter_mut().enumerate()` loop:
walk the channels in configured order, reading each open one.  `inputs i`
is what port `i`'s read delivers this cycle. -/
def runCycleAux (mode : Mode) (inputs : Nat → ReadOutcome) :
    Nat → List (String × Bool) → List PortEntry
  | _, [] => []
  | i, c :: cs =>
    cycleEntry mode c.1 c.2 (inputs i) :: runCycleAux mode inputs (i + 1) cs

/-- One full cycle over the configured channels, producing the `sensors`
entries of the cycle record in configured port order. -/
def runCycle (mode : Mode) (channels : List (String × Bool))
    (inputs : Nat → ReadOutcome) : List PortEntry :=
  runCycleAux mode inputs 0 channels

/-- One tick of the driver loop: the cycle record plus the channel list
carried to the next tick.  The source never closes, drops or reopens a
channel inside the loop, so the channel list is carried over unchanged. -/
def pollStep (mode : Mode) (channels : List (String × Bool))
    (inputs : Nat → ReadOutcome) :
    List PortEntry × List (String × Bool) :=
  (runCycle mode channels inputs, channels)

/-! ## Startup (main.rs lines 92-133) -/

/-- The startup loop over `PORTS`: each configured path is pushed as
`Some(port)` on a successful open and as `None` on a failed one
(main.rs lines 96-128).  `opens` tells which paths open successfully. -/
def openPorts (ports : List String) (opens : String → Bool) :
    List (String × Bool) :=
  ports.map (fun p => (p, opens p))

/-- Whether `main` returns an error before the loop or enters the poll loop
with its channel vector. -/
inductive StartupResult where
  | aborted
  | entersLoop (channels : List (String × Bool))
deriving DecidableEq, Repr

/-- Startup: build `serial_ports`, then
`if serial_ports.is_empty() { return Err(..) }` (main.rs lines 130-133),
else fall into the loop. -/
def startup (ports : List String) (opens : String → Bool) : StartupResult :=
  let serial_ports := openPorts ports opens
  if serial_ports.isEmpty then .aborted else .entersLoop serial_ports

/-! ## Log-file rotation (`save_to_json`, main.rs lines 47-70) -/

/-- A local timestamp as `save_to_json` consumes it: the date part (used
verbatim via `%Y-%m-%d`), hour, minute and second. -/
structure LocalTime where
  date : String
  hour : Nat
  minute : Nat
  second : Nat
deriving DecidableEq, Repr

/-- Two-digit zero padding, as `%H` and `{:02}` format. -/
def pad2 (n : Nat) : String :=
  if n < 10 then "0" ++ toString n else toString n

/-- The target filename computed afresh on every call of `save_to_json`
(main.rs lines 48-56): `sensor_data_<date>_<HH>-<bucket>.json` with
`bucket = (minute / JSON_FILE_INTERVAL_MINUTES) * JSON_FILE_INTERVAL_MINUTES`. -/
def rotationKey (t : LocalTime) : String :=
  let rounded_minute :=
    (t.minute / JSON_FILE_INTERVAL_MINUTES) * JSON_FILE_INTERVAL_MINUTES
  "sensor_data_" ++ t.date ++ "_" ++ pad2 t.hour ++ "-" ++
    pad2 rounded_minute ++ ".json"

/-- The mutable state `save_to_json` touches: `last_saved`, kept as the
elapsed seconds since it was last reset. -/
structure SaveState where
  last_saved_elapsed_s : Nat
deriving DecidableEq, Repr

/-- `save_to_json` (main.rs lines 47-70) up to the write itself: the
filename it opens and the `last_saved` state it leaves (reset when the
configured interval has elapsed, untouched otherwise).  The filename
computation reads nothing from the state. -/
def save_to_json (t : LocalTime) (st : SaveState) : String × SaveState :=
  let filename := rotationKey t
  let st' :=
    if JSON_FILE_INTERVAL_MINUTES * 60 ≤ st.last_saved_elapsed_s then
      SaveState.mk 0
    else st
  (filename, st')

example : rotationKey ⟨"2025-03-01", 10, 1, 59⟩ = "sensor_data_2025-03-01_10-00.json" := by decide
example : rotationKey ⟨"2025-03-01", 10, 2, 0⟩ = "sensor_data_2025-03-01_10-02.json" := by decide

/-! ## Sampling-frequency bookkeeping (frequency-tracking builds)

The checked source build emits only `distance_mm` and `distance_cm`; the
spec notes `sampling_frequency_hz` is "present only in frequency-tracking
builds" (spec section 6), so the bookkeeping below is not in
src/src/main.rs and is modelled from the spec.  Instants are rationals
(seconds). -/

/-- Modelled from the spec: the Port Channel's `last_read_instant: optional
timestamp` (spec section 3), updated only on a successful decode (spec
section 4.1).  The frequency-tracking code is absent from src/src/main.rs. -/
structure FreqState where
  last_read_instant : Option ℚ
deriving DecidableEq

/-- Modelled from the spec: on acceptance compute `sampling_frequency_hz =
1 / seconds_since(last_read_instant)` if a previous accepted reading
exists, else 0; update `last_read_instant` (spec section 4.3 step 2). -/
def acceptReading (st : FreqState) (now : ℚ) : ℚ × FreqState :=
  match st.last_read_instant with
  | some t0 => (1 / (now - t0), FreqState.mk (some now))
  | none => (0, FreqState.mk (some now))

/-- Modelled from the spec: a port's slot in a frequency-tracking build's
cycle record, `sampling_frequency_hz` present exactly when a reading was
accepted this cycle (spec section 6). -/
structure FreqEntry where
  port : String
  distance_mm : Nat
  distance_cm : Nat
  sampling_frequency_hz : Option ℚ
deriving DecidableEq

/-- Modelled from the spec: the per-port step of the frequency-tracking
aggregator (spec section 4.3): unopened channels and rejected reads leave
the frequency state untouched and their entry without a frequency; an
accepted reading records the computed frequency in the port's entry and
advances `last_read_instant`. -/
def cycleEntryFreq (mode : Mode) (name : String) (opened : Bool)
    (outcome : ReadOutcome) (st : FreqState) (now : ℚ) :
    FreqEntry × FreqState :=
  if opened then
    match readAccepted mode outcome with
    | some d =>
      let r := acceptReading st now
      (⟨name, d, d / 10, some r.1⟩, r.2)
    | none => (⟨name, 0, 0, none⟩, st)
  else (⟨name, 0, 0, none⟩, st)

/-! ## Claim theorems -/

/-- Bit-level bridge: for a low byte below 256, the source's
`hi << 8 | lo` reconstruction is the place-value sum `hi * 256 + lo`. -/
theorem shiftLeft_or_eq (a b : Nat) (hb : b < 256) :
    (a <<< 8) ||| b = a * 256 + b := by
  have h : 2 ^ 8 * a + b = 2 ^ 8 * a ||| b :=
    Nat.mul_add_lt_is_or (show b < 2 ^ 8 by omega) a
  rw [Nat.shiftLeft_eq, Nat.mul_comm a (2 ^ 8), ← h]

/-- C1: binary frame decoding.  For a 4-byte frame `[b0, b1, b2, b3]`:
a `0x54` header with an in-bounds value `((b2 << 8) | b3) / 10` decodes to
that distance, valid; a wrong header yields `⟨0, false⟩` whatever the other
bytes hold; a `0x54` header with an out-of-bounds value zeroes the reading;
and byte 1 never influences the result. -/
theorem binary_frame_decoding (b0 b1 b2 b3 : Nat)
    (h0 : b0 < 256) (h2 : b2 < 256) (h3 : b3 < 256) :
    (b0 = 0x54 →
      MIN_DISTANCE_MM ≤ ((b2 <<< 8) ||| b3) / 10 →
      ((b2 <<< 8) ||| b3) / 10 ≤ MAX_DISTANCE_MM →
      decodeBinaryFrame b0 b1 b2 b3 = ⟨((b2 <<< 8) ||| b3) / 10, true⟩) ∧
    (b0 ≠ 0x54 → decodeBinaryFrame b0 b1 b2 b3 = ⟨0, false⟩) ∧
    (b0 = 0x54 →
      ¬(MIN_DISTANCE_MM ≤ ((b2 <<< 8) ||| b3) / 10 ∧
          ((b2 <<< 8) ||| b3) / 10 ≤ MAX_DISTANCE_MM) →
      decodeBinaryFrame b0 b1 b2 b3 = ⟨0, false⟩) ∧
    (∀ b1' : Nat, decodeBinaryFrame b0 b1 b2 b3 = decodeBinaryFrame b0 b1' b2 b3) := by
  have e0 : b0 % 256 = b0 := Nat.mod_eq_of_lt h0
  have e2 : b2 % 256 = b2 := Nat.mod_eq_of_lt h2
  have e3 : b3 % 256 = b3 := Nat.mod_eq_of_lt h3
  refine ⟨?_, ?_, ?_, fun b1' => rfl⟩
  · intro hh hmin hmax
    simp [decodeBinaryFrame, e0, e2, e3, hh, hmin, hmax]
  · intro hh
    simp [decodeBinaryFrame, e0, e2, e3, hh]
  · intro hh hout
    simp [decodeBinaryFrame, e0, e2, e3, hh, hout]

/-- C1 witness: the frame `[0x54, 0x00, 0x13, 0x88]` carries 5000 tenths of
a millimetre and decodes to 500 mm, valid. -/
theorem binary_frame_decoding_witness :
    decodeBinaryFrame 0x54 0x00 0x13 0x88 = ⟨500, true⟩ :=
  (binary_frame_decoding 0x54 0x00 0x13 0x88 (by decide) (by decide)
      (by decide)).1 rfl (by decide) (by decide)

/-- `parseU16` only ever returns values that fit in 16 bits. -/
theorem parseU16_le (s : List Char) (d : Nat) (h : parseU16 s = some d) :
    d ≤ 65535 := by
  simp only [parseU16] at h
  repeat' split at h
  all_goals first
    | (simp only [Option.some.injEq] at h; omega)
    | simp at h

/-- C2: text frame decoding.  A line is trimmed and parsed as an unsigned
integer; `"1234\n"` is accepted as 1234 and `"7000\n"` rejected to 0 under
the bounds `[500, 6000]`; in general a parse failure or an out-of-range
value yields distance 0, and an in-range value is accepted. -/
theorem text_frame_decoding :
    textDistance (read_text_distance (some ['1', '2', '3', '4', '\n'])) = 1234 ∧
    textDistance (read_text_distance (some ['7', '0', '0', '0', '\n'])) = 0 ∧
    (∀ (line : List Char) (d : Nat),
      (parseU16 (rustTrim line) = none →
        textDistance (read_text_distance (some line)) = 0) ∧
      (parseU16 (rustTrim line) = some d →
        (MIN_DISTANCE_MM ≤ d ∧ d ≤ MAX_DISTANCE_MM →
          read_text_distance (some line) = .accepted d ∧
          textDistance (read_text_distance (some line)) = d) ∧
        (¬(MIN_DISTANCE_MM ≤ d ∧ d ≤ MAX_DISTANCE_MM) →
          textDistance (read_text_distance (some line)) = 0))) := by
  refine ⟨by decide, by decide, ?_⟩
  intro line d
  constructor
  · intro hnone
    by_cases he : line.isEmpty
    · simp [read_text_distance, he, textDistance]
    · simp [read_text_distance, he, hnone, textDistance]
  · intro hsome
    have hne : line.isEmpty = false := by
      cases line with
      | nil => simp [rustTrim, parseU16] at hsome
      | cons c cs => rfl
    constructor
    · intro hin
      simp [read_text_distance, hne, hsome, hin, textDistance]
    · intro hout
      simp [read_text_distance, hne, hsome, hout, textDistance]

/-- C2 witness: `"9999\n"` parses but exceeds the bounds, so the recorded
distance is 0. -/
theorem text_frame_decoding_witness :
    textDistance (read_text_distance (some ['9', '9', '9', '9', '\n'])) = 0 :=
  ((text_frame_decoding.2.2 ['9', '9', '9', '9', '\n'] 9999).2 (by decide)).2
    (by decide)

/-- C10: in text mode, a trimmed all-digit line whose value exceeds 65535
fails the 16-bit parse: the outcome is `parseFail` (no out-of-range
warning) with distance 0, and any value that reaches the range test — an
`outOfRange` rejection or an acceptance — fits in 16 bits. -/
theorem text_parse_width (line : List Char) (d : Nat) :
    (rustTrim line ≠ [] →
      (rustTrim line).all Char.isDigit →
      65535 < digitsToNat (rustTrim line) →
      read_text_distance (some line) = .parseFail ∧
      textDistance (read_text_distance (some line)) = 0) ∧
    (read_text_distance (some line) = .outOfRange d → d ≤ 65535) ∧
    (read_text_distance (some line) = .accepted d → d ≤ 65535) := by
  refine ⟨?_, ?_, ?_⟩
  · intro hne hdig hbig
    have hparse : parseU16 (rustTrim line) = none := by
      simp only [parseU16]
      have hhead : ¬ (rustTrim line).head? = some '+' := by
        cases htr : rustTrim line with
        | nil => exact absurd htr hne
        | cons c rest =>
          intro hc
          have hcd : c.isDigit := by
            have h2 := hdig
            rw [htr] at h2
            simp only [List.all_cons, Bool.and_eq_true] at h2
            exact h2.1
          have : c = '+' := by simpa using hc
          rw [this] at hcd
          exact absurd hcd (by decide)
      rw [if_neg hhead]
      simp [hne, hdig, Nat.not_le_of_lt hbig]
    have hlne : line.isEmpty = false := by
      cases line with
      | nil => exact absurd rfl hne
      | cons c cs => rfl
    constructor
    · simp [read_text_distance, hlne, hparse]
    · simp [read_text_distance, hlne, hparse, textDistance]
  · intro h
    simp only [read_text_distance] at h
    split at h
    · exact absurd h (by simp)
    · split at h
      · split at h
        · exact absurd h (by simp)
        · rename_i v hv _
          have : v = d := by simpa using h
          exact this ▸ parseU16_le _ v hv
      · exact absurd h (by simp)
  · intro h
    simp only [read_text_distance] at h
    split at h
    · exact absurd h (by simp)
    · split at h
      · split at h
        · rename_i v hv _
          have : v = d := by simpa using h
          exact this ▸ parseU16_le _ v hv
        · exact absurd h (by simp)
      · exact absurd h (by simp)

/-- C10 witness: `"70000\n"` is all digits after trimming, exceeds 65535,
and is rejected as a parse failure with distance 0. -/
theorem text_parse_width_witness :
    read_text_distance (some ['7', '0', '0', '0', '0', '\n']) = .parseFail ∧
    textDistance (read_text_distance (some ['7', '0', '0', '0', '0', '\n'])) = 0 :=
  (text_parse_width ['7', '0', '0', '0', '0', '\n'] 0).1 (by decide) (by decide)
    (by decide)

/-- The ports of the entries a cycle emits are exactly the configured
paths, in configured order. -/
theorem runCycleAux_map_port (mode : Mode) (inputs : Nat → ReadOutcome)
    (channels : List (String × Bool)) :
    ∀ i : Nat,
      (runCycleAux mode inputs i channels).map PortEntry.port =
        channels.map Prod.fst := by
  induction channels with
  | nil => intro i; rfl
  | cons c cs ih => intro i; simp [runCycleAux, cycleEntry, ih]

/-- The entry at index `j` is the per-port body applied to channel `j` and
its own input. -/
theorem runCycleAux_getElem? (mode : Mode) (inputs : Nat → ReadOutcome)
    (channels : List (String × Bool)) :
    ∀ i j : Nat,
      (runCycleAux mode inputs i channels)[j]? =
        channels[j]?.map (fun c => cycleEntry mode c.1 c.2 (inputs (i + j))) := by
  induction channels with
  | nil => intro i j; simp [runCycleAux]
  | cons c cs ih =>
    intro i j
    cases j with
    | zero => simp [runCycleAux]
    | succ j' =>
      simp only [runCycleAux, List.getElem?_cons_succ, ih (i + 1) j']
      have : i + 1 + j' = i + (j' + 1) := by omega
      rw [this]

/-- `runCycleAux_map_port` at the cycle's starting index. -/
theorem runCycle_map_port (mode : Mode) (channels : List (String × Bool))
    (inputs : Nat → ReadOutcome) :
    (runCycle mode channels inputs).map PortEntry.port =
      channels.map Prod.fst :=
  runCycleAux_map_port mode inputs channels 0

/-- `runCycleAux_getElem?` at the cycle's starting index. -/
theorem runCycle_getElem? (mode : Mode) (channels : List (String × Bool))
    (inputs : Nat → ReadOutcome) (i : Nat) :
    (runCycle mode channels inputs)[i]? =
      channels[i]?.map (fun c => cycleEntry mode c.1 c.2 (inputs i)) := by
  simpa [runCycle] using runCycleAux_getElem? mode inputs channels 0 i

/-- Case analysis of the binary decoder: a frame either zeroes out invalid
or yields a valid in-bounds distance. -/
theorem decodeBinaryFrame_cases (b0 b1 b2 b3 : Nat) :
    decodeBinaryFrame b0 b1 b2 b3 = ⟨0, false⟩ ∨
      (MIN_DISTANCE_MM ≤ (decodeBinaryFrame b0 b1 b2 b3).distance_mm ∧
        (decodeBinaryFrame b0 b1 b2 b3).distance_mm ≤ MAX_DISTANCE_MM ∧
        (decodeBinaryFrame b0 b1 b2 b3).valid = true) := by
  unfold decodeBinaryFrame
  dsimp only
  split
  · split
    · rename_i hin
      exact Or.inr ⟨hin.1, hin.2, rfl⟩
    · exact Or.inl rfl
  · exact Or.inl rfl

/-- A text reading is accepted only inside the configured bounds. -/
theorem read_text_accepted_bounds (input : Option (List Char)) (d : Nat)
    (h : read_text_distance input = .accepted d) :
    MIN_DISTANCE_MM ≤ d ∧ d ≤ MAX_DISTANCE_MM := by
  simp only [read_text_distance] at h
  repeat' split at h
  all_goals simp_all

/-- The distance a read contributes is zero or within bounds. -/
theorem readDistance_cases (mode : Mode) (o : ReadOutcome) :
    readDistance mode o = 0 ∨
      (MIN_DISTANCE_MM ≤ readDistance mode o ∧
        readDistance mode o ≤ MAX_DISTANCE_MM) := by
  cases mode with
  | Binary =>
    cases o with
    | timeout => simp [readDistance, readAccepted]
    | ioError => simp [readDistance, readAccepted]
    | line cs => simp [readDistance, readAccepted]
    | emptyLine => simp [readDistance, readAccepted]
    | frame b0 b1 b2 b3 =>
      rcases decodeBinaryFrame_cases b0 b1 b2 b3 with hz | hb
      · simp [readDistance, readAccepted, hz]
      · simp only [readDistance, readAccepted, hb.2.2]
        simp only [if_true, Option.getD_some]
        exact Or.inr ⟨hb.1, hb.2.1⟩
  | Text =>
    cases o with
    | timeout => simp [readDistance, readAccepted]
    | ioError => simp [readDistance, readAccepted]
    | frame b0 b1 b2 b3 => simp [readDistance, readAccepted]
    | emptyLine => simp [readDistance, readAccepted]
    | line cs =>
      cases hr : read_text_distance (some cs) with
      | accepted d =>
        simp only [readDistance, readAccepted, hr, Option.getD_some]
        exact Or.inr (read_text_accepted_bounds _ _ hr)
      | noData => simp [readDistance, readAccepted, hr]
      | parseFail => simp [readDistance, readAccepted, hr]
      | outOfRange d => simp [readDistance, readAccepted, hr]

/-- Shape of every emitted per-port entry. -/
theorem cycleEntry_spec (mode : Mode) (name : String) (opened : Bool)
    (o : ReadOutcome) :
    (cycleEntry mode name opened o).port = name ∧
    (cycleEntry mode name opened o).distance_cm =
      (cycleEntry mode name opened o).distance_mm / 10 ∧
    ((cycleEntry mode name opened o).distance_mm = 0 ∨
      (MIN_DISTANCE_MM ≤ (cycleEntry mode name opened o).distance_mm ∧
        (cycleEntry mode name opened o).distance_mm ≤ MAX_DISTANCE_MM)) := by
  refine ⟨rfl, rfl, ?_⟩
  cases opened with
  | false => exact Or.inl rfl
  | true =>
    simpa [cycleEntry] using readDistance_cases mode o

/-- Every entry of a cycle is produced by the per-port body. -/
theorem mem_runCycleAux (mode : Mode) (inputs : Nat → ReadOutcome)
    (channels : List (String × Bool)) :
    ∀ (i : Nat) (e : PortEntry), e ∈ runCycleAux mode inputs i channels →
      ∃ (name : String) (opened : Bool) (j : Nat),
        e = cycleEntry mode name opened (inputs j) := by
  induction channels with
  | nil => intro i e he; simp [runCycleAux] at he
  | cons c cs ih =>
    intro i e he
    simp only [runCycleAux, List.mem_cons] at he
    rcases he with he | he
    · exact ⟨c.1, c.2, i, he⟩
    · exact ih (i + 1) e he

/-- C3: every configured port has exactly one entry in every cycle record,
in configured order; a channel that never opened contributes the zeroed
entry `⟨name, 0, 0⟩` no matter what any read would have delivered. -/
theorem every_port_one_entry (mode : Mode) (channels : List (String × Bool))
    (inputs : Nat → ReadOutcome) :
    (runCycle mode channels inputs).map PortEntry.port =
      channels.map Prod.fst ∧
    ((channels.map Prod.fst).Nodup →
      ∀ name ∈ channels.map Prod.fst,
        ((runCycle mode channels inputs).filter
            (fun e => e.port == name)).length = 1) ∧
    (∀ (i : Nat) (name : String), channels[i]? = some (name, false) →
      (runCycle mode channels inputs)[i]? = some ⟨name, 0, 0⟩) := by
  refine ⟨runCycle_map_port mode channels inputs, ?_, ?_⟩
  · intro hnd name hmem
    have hc : (runCycle mode channels inputs).countP (fun e => e.port == name) =
        ((runCycle mode channels inputs).map PortEntry.port).countP
          (fun s => s == name) := by
      rw [List.countP_map]
      rfl
    rw [← List.countP_eq_length_filter, hc,
      runCycle_map_port mode channels inputs]
    have hcount : ((channels.map Prod.fst).countP (fun s => s == name)) =
        (channels.map Prod.fst).count name := rfl
    rw [hcount]
    exact List.count_eq_one_of_mem hnd hmem
  · intro i name hch
    rw [runCycle_getElem? mode channels inputs i, hch]
    simp [cycleEntry]

/-- C3 witness: a two-port cycle where the second channel never opened gets
the zeroed entry in its slot. -/
theorem every_port_one_entry_witness :
    (runCycle .Text [("/dev/ttyACM1", true), ("/dev/ttyACM0", false)]
        (fun _ => .timeout))[1]? = some ⟨"/dev/ttyACM0", 0, 0⟩ :=
  (every_port_one_entry .Text
      [("/dev/ttyACM1", true), ("/dev/ttyACM0", false)]
      (fun _ => .timeout)).2.2 1 "/dev/ttyACM0" (by decide)

/-- C7: on an open channel a timeout and a non-timeout I/O error are both
recorded as the zeroed entry, and a tick never closes or drops a channel:
the channel list reaching the next cycle is unchanged, so the port is
retried. -/
theorem timeout_ioerror_nonfatal (mode : Mode) (name : String) :
    cycleEntry mode name true .timeout = ⟨name, 0, 0⟩ ∧
    cycleEntry mode name true .ioError = ⟨name, 0, 0⟩ ∧
    (∀ (channels : List (String × Bool)) (inputs : Nat → ReadOutcome),
      (pollStep mode channels inputs).2 = channels) := by
  refine ⟨?_, ?_, fun _ _ => rfl⟩ <;> cases mode <;> rfl

/-- C8: within a cycle, port `i`'s entry depends only on port `i`'s own
input — two runs whose inputs agree at `i` produce the same slot `i` — and
the slots appear in configured port order. -/
theorem port_isolation (mode : Mode) (channels : List (String × Bool))
    (inputs1 inputs2 : Nat → ReadOutcome) (i : Nat)
    (h : inputs1 i = inputs2 i) :
    (runCycle mode channels inputs1)[i]? =
      (runCycle mode channels inputs2)[i]? ∧
    (runCycle mode channels inputs1).map PortEntry.port =
      channels.map Prod.fst := by
  refine ⟨?_, runCycle_map_port mode channels inputs1⟩
  rw [runCycle_getElem? mode channels inputs1 i,
    runCycle_getElem? mode channels inputs2 i, h]

/-- C8 witness: giving port 0 data instead of a timeout leaves port 1's
slot untouched. -/
theorem port_isolation_witness :
    (runCycle .Text [("/dev/ttyACM1", true), ("/dev/ttyACM0", true)]
        (fun n => if n = 0 then .line ['6', '6', '6', '\n'] else .timeout))[1]? =
      (runCycle .Text [("/dev/ttyACM1", true), ("/dev/ttyACM0", true)]
        (fun _ => .timeout))[1]? :=
  (port_isolation .Text [("/dev/ttyACM1", true), ("/dev/ttyACM0", true)]
      (fun n => if n = 0 then .line ['6', '6', '6', '\n'] else .timeout)
      (fun _ => .timeout) 1 (by decide)).1

/-- C9: in every emitted entry, `distance_cm` is the integer division of
`distance_mm` by 10, and `distance_mm` is 0 or within `[500, 6000]`. -/
theorem emitted_entry_invariant (mode : Mode)
    (channels : List (String × Bool)) (inputs : Nat → ReadOutcome) :
    ∀ e ∈ runCycle mode channels inputs,
      e.distance_cm = e.distance_mm / 10 ∧
      (e.distance_mm = 0 ∨
        (MIN_DISTANCE_MM ≤ e.distance_mm ∧
          e.distance_mm ≤ MAX_DISTANCE_MM)) := by
  intro e he
  obtain ⟨name, opened, j, rfl⟩ :=
    mem_runCycleAux mode inputs channels 0 e he
  exact (cycleEntry_spec mode name opened (inputs j)).2

/-- C9 witness: a one-port text cycle reading 1234 mm emits
`distance_cm = 123` with an in-bounds `distance_mm`. -/
theorem emitted_entry_invariant_witness :
    (⟨"/dev/ttyACM0", 1234, 123⟩ : PortEntry).distance_cm =
        (⟨"/dev/ttyACM0", 1234, 123⟩ : PortEntry).distance_mm / 10 ∧
      ((⟨"/dev/ttyACM0", 1234, 123⟩ : PortEntry).distance_mm = 0 ∨
        (MIN_DISTANCE_MM ≤ (⟨"/dev/ttyACM0", 1234, 123⟩ : PortEntry).distance_mm ∧
          (⟨"/dev/ttyACM0", 1234, 123⟩ : PortEntry).distance_mm ≤ MAX_DISTANCE_MM)) :=
  emitted_entry_invariant .Text [("/dev/ttyACM0", true)]
    (fun _ => .line ['1', '2', '3', '4', '\n']) ⟨"/dev/ttyACM0", 1234, 123⟩
    (by decide)

/-- C4: the startup guard checks `serial_ports.is_empty()`, but the startup
loop pushes a `None` placeholder for every configured port that fails to
open, so the vector is empty exactly when the configured list is — not when
zero ports opened.  With the three configured ports all failing to open,
startup still enters the poll loop instead of aborting; the abort fires
only for an empty configured port list. -/
theorem startup_zero_opened_still_enters_loop :
    startup PORTS (fun _ => false) =
      .entersLoop
        [("/dev/ttyACM1", false), ("/dev/ttyACM0", false),
          ("/dev/ttyACM2", false)] ∧
    startup PORTS (fun _ => false) ≠ .aborted ∧
    (∀ opens : String → Bool, startup PORTS opens ≠ .aborted) ∧
    (∀ (ports : List String) (opens : String → Bool),
      startup ports opens = .aborted ↔ ports = []) := by
  refine ⟨rfl, by decide, ?_, ?_⟩
  · intro opens
    simp [startup, openPorts, PORTS]
  · intro ports opens
    cases ports with
    | nil => simp [startup, openPorts]
    | cons p ps => simp [startup, openPorts]

/-- C6: the log-file key is a pure function of the timestamp — the cached
`last_saved` state never enters the filename — computed as
date, hour, and `(minute / N) * N` with the configured width `N = 2`;
minutes 10:01:59 and 10:02:00 land in buckets `10-00` and `10-02`, while
10:01:00 and 10:01:59 share a key. -/
theorem rotation_key_pure (t : LocalTime) (st1 st2 : SaveState) :
    (save_to_json t st1).1 = rotationKey t ∧
    (save_to_json t st1).1 = (save_to_json t st2).1 ∧
    rotationKey t =
      "sensor_data_" ++ t.date ++ "_" ++ pad2 t.hour ++ "-" ++
        pad2 ((t.minute / JSON_FILE_INTERVAL_MINUTES) *
          JSON_FILE_INTERVAL_MINUTES) ++ ".json" ∧
    rotationKey ⟨"2025-03-01", 10, 1, 59⟩ =
      "sensor_data_2025-03-01_10-00.json" ∧
    rotationKey ⟨"2025-03-01", 10, 2, 0⟩ =
      "sensor_data_2025-03-01_10-02.json" ∧
    rotationKey ⟨"2025-03-01", 10, 1, 59⟩ ≠
      rotationKey ⟨"2025-03-01", 10, 2, 0⟩ ∧
    rotationKey ⟨"2025-03-01", 10, 1, 0⟩ =
      rotationKey ⟨"2025-03-01", 10, 1, 59⟩ := by
  exact ⟨rfl, rfl, rfl, by decide, by decide, by decide, by decide⟩

/-- C5: on an accepted reading the frequency-tracking aggregator records
`sampling_frequency_hz = 0` for the port's first accepted reading and
`1 / seconds_since(last_read_instant)` afterwards, stores it in the port's
entry, and advances `last_read_instant` to the current instant. -/
theorem sampling_frequency_on_accept (mode : Mode) (name : String)
    (o : ReadOutcome) (d : Nat) (st : FreqState) (now : ℚ)
    (hacc : readAccepted mode o = some d) :
    (st.last_read_instant = none →
      cycleEntryFreq mode name true o st now =
        (⟨name, d, d / 10, some 0⟩, ⟨some now⟩)) ∧
    (∀ t0 : ℚ, st.last_read_instant = some t0 →
      cycleEntryFreq mode name true o st now =
        (⟨name, d, d / 10, some (1 / (now - t0))⟩, ⟨some now⟩)) := by
  constructor
  · intro hnone
    simp [cycleEntryFreq, hacc, acceptReading, hnone]
  · intro t0 hsome
    simp [cycleEntryFreq, hacc, acceptReading, hsome]

/-- C6 witness: the key computed with a stale cached state equals the fresh
key for 10:01:59. -/
theorem rotation_key_pure_witness :
    (save_to_json ⟨"2025-03-01", 10, 1, 59⟩ (SaveState.mk 500)).1 =
      rotationKey ⟨"2025-03-01", 10, 1, 59⟩ :=
  (rotation_key_pure ⟨"2025-03-01", 10, 1, 59⟩ (SaveState.mk 500)
      (SaveState.mk 0)).1

/-- C7 witness: a binary-mode channel timing out is recorded as the zeroed
entry. -/
theorem timeout_ioerror_nonfatal_witness :
    cycleEntry .Binary "/dev/ttyACM0" true .timeout =
      ⟨"/dev/ttyACM0", 0, 0⟩ :=
  (timeout_ioerror_nonfatal .Binary "/dev/ttyACM0").1

/-- C5 witness: a second accepted text reading two seconds after the first
is recorded with frequency 1/2 Hz and the instant is advanced. -/
theorem sampling_frequency_on_accept_witness :
    cycleEntryFreq .Text "/dev/ttyACM0" true
        (.line ['1', '2', '3', '4', '\n']) (FreqState.mk (some 2)) 4 =
      (⟨"/dev/ttyACM0", 1234, 1234 / 10, some (1 / ((4 : ℚ) - 2))⟩,
        ⟨some 4⟩) :=
  (sampling_frequency_on_accept .Text "/dev/ttyACM0"
      (.line ['1', '2', '3', '4', '\n']) 1234 (FreqState.mk (some 2)) 4
      (by decide)).2 2 rfl

end ToFLidar
